import Mathlib

/-!
Shallow embedding of the Solana LP Burn Monitor (src/app.py) and proofs of
the spec's claims about it.

The embedding keeps the source's names (`check_transaction`,
`get_token_info`, `rotate_rpc`, ...).  State that the Python object holds
(the RPC pool, the signature set, the token cache, the error counter) is
passed explicitly; network calls (`get_transaction`, the Jupiter lookup,
`send_message`, `get_signatures_for_address`) are parameters of the
functions that perform them, returning `Except`/`Option` values so that a
raised exception is an explicit `.error`.
-/

/-! ### Configuration constants (src/app.py lines 102-116) -/

/-- `CHECK_INTERVAL` default (seconds). -/
def CHECK_INTERVAL : Nat := 30

/-- `MIN_BURN_PERCENT` default value (the configured minimum-burn threshold). -/
def MIN_BURN_PERCENT : Nat := 90

/-- `RAYDIUM_AMM_PROGRAM`: the monitored program's identifier. -/
def RAYDIUM_AMM_PROGRAM : String := "675kPX9MHTjS2zt1qfr1NYHuzeLXfQM9H24wFSUt1Mp8"

/-- `RAYDIUM_AUTHORITY`: the monitored program's authority identifier. -/
def RAYDIUM_AUTHORITY : String := "5Q544fKrFoe6tsEbD7S8EmxGTJYAKtTVhAW5Q5pge4j1"

/-- `BURN_ADDRESSES`: the fixed burn-sink address set. -/
def BURN_ADDRESSES : List String :=
  [ "1111111111111111111111111111111111111111111"
  , "11111111111111111111111111111111"
  , "So11111111111111111111111111111111111111112"
  , "burnSoL11111111111111111111111111111111111"
  , "DeadSo11111111111111111111111111111111111" ]

/-- `RPC_URLS` with the default first entry (`SOLANA_RPC_URL` unset). -/
def RPC_URLS : List String :=
  [ "https://api.mainnet-beta.solana.com"
  , "https://solana-mainnet.g.alchemy.com/v2/demo"
  , "https://rpc.helius.xyz/"
  , "https://mainnet.solana.rpcpool.com"
  , "https://solana-mainnet.rpc.extrnode.com" ]

/-! ### Transaction data model

`get_transaction` returns a response whose `.value` may be absent; the
value's `.transaction` may be absent; its `.message` exposes the account
keys under `account_keys` (legacy) or `static_account_keys` (versioned).
We model each "may be absent / may lack the attribute" point as `Option`. -/

/-- A transaction message: at most one of the two account-key attributes is
present (`hasattr` probing in src/app.py lines 232-235). -/
structure TxMessage where
  account_keys : Option (List String)
  static_account_keys : Option (List String)
deriving DecidableEq

/-- `tx.value.transaction`: carries the message. -/
structure TxTransaction where
  message : TxMessage
deriving DecidableEq

/-- `tx.value`: the transaction body; `transaction` may be absent. -/
structure TxData where
  transaction : Option TxTransaction
deriving DecidableEq

/-- The RPC response: `value` may be absent. -/
structure TxResp where
  value : Option TxData
deriving DecidableEq

/-- Account-key extraction (src/app.py lines 229-235): probe
`account_keys`, then `static_account_keys`, else the empty list. -/
def get_account_keys (message : TxMessage) : List String :=
  match message.account_keys with
  | some keys => keys
  | none =>
    match message.static_account_keys with
    | some keys => keys
    | none => []

/-- The classification result dict built at src/app.py lines 248-253. -/
structure ClassificationResult where
  signature : String
  token_address : String
  timestamp : String
  burn_percent : Nat
deriving DecidableEq

/-- `check_transaction` (src/app.py lines 204-258).  `fetch` stands for
`self.solana_client.get_transaction`; `.error` is a raised exception,
caught by the surrounding `try`/`except` which returns `None`.  `now` is
the `datetime.utcnow()` timestamp string. -/
def check_transaction (fetch : String → Except String (Option TxResp))
    (now : String) (signature : String) : Option ClassificationResult :=
  match fetch signature with
  | .error _ => none
  | .ok none => none
  | .ok (some tx) =>
    match tx.value with
    | none => none
    | some tx_data =>
      match tx_data.transaction with
      | none => none
      | some txn =>
        let accounts := get_account_keys txn.message
        let has_burn := BURN_ADDRESSES.any (fun burn => accounts.contains burn)
        let has_raydium :=
          accounts.contains RAYDIUM_AMM_PROGRAM || accounts.contains RAYDIUM_AUTHORITY
        if has_burn && has_raydium then
          some { signature := signature
               , token_address := accounts.headD "unknown"
               , timestamp := now
               , burn_percent := MIN_BURN_PERCENT }
        else
          none

/-! ### Metadata cache (`get_token_info`, src/app.py lines 170-191) -/

/-- The JSON body of a Jupiter response; each field may be missing
(`data.get(...)`). -/
structure TokenData where
  symbol : Option String
  name : Option String
  decimals : Option Nat
deriving DecidableEq

/-- The token-info record returned by `get_token_info`. -/
structure TokenInfo where
  symbol : String
  name : String
  decimals : Nat
deriving DecidableEq

/-- One outbound lookup attempt: either a raised exception
(timeout / network error) or an HTTP response with a status and body. -/
inductive LookupOutcome where
  | failure
  | response (status : Nat) (data : TokenData)
deriving DecidableEq

/-- The fallback record returned at src/app.py line 191. -/
def fallback_info : TokenInfo :=
  { symbol := "???", name := "Unknown", decimals := 9 }

/-- The record built from a 200 response body (src/app.py lines 181-185):
per-field defaults `"???"`, `"Unknown"`, `9`. -/
def token_info_of_data (data : TokenData) : TokenInfo :=
  { symbol := data.symbol.getD "???"
  , name := data.name.getD "Unknown"
  , decimals := data.decimals.getD 9 }

/-- `get_token_info` (src/app.py lines 170-191).  `lookup` stands for the
Jupiter HTTP GET; the token cache (`self.token_cache`) is passed and
returned explicitly, newest entry first.  Returns the record and the new
cache. -/
def get_token_info (lookup : String → LookupOutcome)
    (token_cache : List (String × TokenInfo)) (mint_address : String) :
    TokenInfo × List (String × TokenInfo) :=
  match token_cache.lookup mint_address with
  | some info => (info, token_cache)
  | none =>
    match lookup mint_address with
    | .failure => (fallback_info, token_cache)
    | .response status data =>
      if status = 200 then
        let info := token_info_of_data data
        (info, (mint_address, info) :: token_cache)
      else
        (fallback_info, token_cache)

/-! ### Endpoint pool (`rotate_rpc`, src/app.py lines 193-202) -/

/-- The endpoint pool: the URL list and the current index
(`self.rpc_urls`, `self.rpc_index`). -/
structure RpcPool where
  rpc_urls : List String
  rpc_index : Nat
deriving DecidableEq

/-- `rotate_rpc` (src/app.py lines 193-202): advance the index by one
modulo the pool size. -/
def rotate_rpc (pool : RpcPool) : RpcPool :=
  { pool with rpc_index := (pool.rpc_index + 1) % pool.rpc_urls.length }

/-- The current endpoint (`self.rpc_urls[self.rpc_index]`). -/
def current_rpc (pool : RpcPool) : Option String :=
  pool.rpc_urls[pool.rpc_index]?

/-! ### Notification dispatch (`send_notification`, src/app.py lines 260-290) -/

/-- The Telegram message text rendered at src/app.py lines 265-278
(abridged to its data content: name, symbol, truncated address, burn
percent, timestamp, and the three viewer links). -/
def format_message (token : TokenInfo) (burn_data : ClassificationResult) : String :=
  "LP BURN DETECTED! Token: " ++ token.name ++ " (" ++ token.symbol ++ ")" ++
  " Address: " ++ String.mk (burn_data.token_address.data.take 8) ++ "..." ++
  String.mk (burn_data.token_address.data.reverse.take 8).reverse ++
  " LP Burned: ~" ++ toString burn_data.burn_percent ++ "%" ++
  " Time: " ++ burn_data.timestamp ++
  " https://solscan.io/tx/" ++ burn_data.signature ++
  " https://dexscreener.com/solana/" ++ burn_data.token_address ++
  " https://birdeye.so/token/" ++ burn_data.token_address ++ "?chain=solana"

/-- `send_notification` (src/app.py lines 260-290).  `send` stands for
`self.telegram_bot.send_message`; a `.error` result is a raised exception,
caught by the `except` which only logs.  Returns the updated token cache
and the single message text handed to `send` (the call is made exactly
once; its outcome is discarded). -/
def send_notification (lookup : String → LookupOutcome)
    (send : String → Except String Unit)
    (token_cache : List (String × TokenInfo)) (burn_data : ClassificationResult) :
    List (String × TokenInfo) × String :=
  let (token, cache') := get_token_info lookup token_cache burn_data.token_address
  let message := format_message token burn_data
  match send message with
  | .ok _ => (cache', message)
  | .error _ => (cache', message)

/-! ### Monitor-loop error handling (src/app.py lines 326-353)

The `except` block classifies the exception by substring tests on
`str(e)` and applies a recovery: rotations and sleeps.  We record the
recovery as a list of actions in the order performed. -/

/-- Python's `needle in haystack` substring test, on `List Char`. -/
def beginsWith : List Char → List Char → Bool
  | [], _ => true
  | _ :: _, [] => false
  | a :: as, b :: bs => a == b && beginsWith as bs

/-- `occursIn needle hay` is Python's `needle in hay` for strings. -/
def occursIn (needle : List Char) : List Char → Bool
  | [] => beginsWith needle []
  | c :: rest => beginsWith needle (c :: rest) || occursIn needle rest

/-- `needle in error_msg` on `String`s. -/
def occursInStr (needle hay : String) : Bool :=
  occursIn needle.data hay.data

/-- An endpoint rotation or an `asyncio.sleep n`. -/
inductive RecoveryAction where
  | rotate
  | sleep (n : Nat)
deriving DecidableEq, BEq

/-- The condition of the `429` branch (src/app.py line 333). -/
def is_rate_limited (error_msg : String) : Bool :=
  occursInStr "429" error_msg || occursInStr "Too Many Requests" error_msg

/-- The condition of the `403` branch (src/app.py line 337). -/
def is_forbidden (error_msg : String) : Bool :=
  occursInStr "403" error_msg || occursInStr "Forbidden" error_msg

/-- The condition of the `503` branch (src/app.py line 341). -/
def is_unavailable (error_msg : String) : Bool :=
  occursInStr "503" error_msg || occursInStr "Service Unavailable" error_msg

/-- The condition of the connection/timeout branch (src/app.py line 345). -/
def is_conn_timeout (error_msg : String) : Bool :=
  occursInStr "Connection" error_msg || occursInStr "Timeout" error_msg

/-- The `if`/`elif` chain of src/app.py lines 333-347: the per-class
recovery actions, first matching branch only. -/
def per_class_actions (error_msg : String) : List RecoveryAction :=
  if is_rate_limited error_msg then [.rotate, .sleep 30]
  else if is_forbidden error_msg then [.rotate, .sleep 5]
  else if is_unavailable error_msg then [.rotate, .sleep 10]
  else if is_conn_timeout error_msg then [.sleep 10]
  else []

/-- The whole `except` block (src/app.py lines 326-353): increment
`error_count`, run the per-class branch, then, if the count exceeds 10,
additionally rotate, sleep 60 and reset the count to 0.  Returns the new
`error_count` and the recovery actions in order. -/
def handle_cycle_error (error_msg : String) (error_count : Nat) :
    Nat × List RecoveryAction :=
  let ec := error_count + 1
  let acts := per_class_actions error_msg
  if 10 < ec then (0, acts ++ [.rotate, .sleep 60])
  else (ec, acts)

/-- A run of consecutive failing cycles: fold `handle_cycle_error` over
the failures' exception messages, collecting each cycle's recovery
actions. -/
def run_failures (msgs : List String) (error_count : Nat) :
    Nat × List (List RecoveryAction) :=
  match msgs with
  | [] => (error_count, [])
  | msg :: rest =>
    let step := handle_cycle_error msg error_count
    let tail := run_failures rest step.1
    (tail.1, step.2 :: tail.2)

/-! ### One polling cycle (`monitor_loop` body, src/app.py lines 297-355) -/

/-- What one pass over the fetched signatures did (src/app.py lines
305-317): the signature set (as an insertion-ordered list, oldest first),
the token cache, the signatures handed to `check_transaction`, the
classification results notified, and the message texts handed to the
messaging send call. -/
structure CycleOutcome where
  processed_signatures : List String
  token_cache : List (String × TokenInfo)
  classified : List String
  notifications : List ClassificationResult
  sent_msgs : List String
deriving DecidableEq

/-- The `for sig_info in signatures.value` loop (src/app.py lines
307-317): in data-source order, skip signatures already in
`processed_signatures`; otherwise add (append, preserving insertion
order), then classify, then notify when classification returned a
result. -/
def process_signatures (fetch : String → Except String (Option TxResp))
    (lookup : String → LookupOutcome) (send : String → Except String Unit)
    (now : String) (processed : List String)
    (token_cache : List (String × TokenInfo)) :
    List String → CycleOutcome
  | [] => ⟨processed, token_cache, [], [], []⟩
  | sig :: rest =>
    if processed.contains sig then
      process_signatures fetch lookup send now processed token_cache rest
    else
      let processed' := processed ++ [sig]
      match check_transaction fetch now sig with
      | none =>
        let r := process_signatures fetch lookup send now processed' token_cache rest
        { r with classified := sig :: r.classified }
      | some burn_data =>
        let step := send_notification lookup send token_cache burn_data
        let r := process_signatures fetch lookup send now processed' step.1 rest
        { r with classified := sig :: r.classified
               , notifications := burn_data :: r.notifications
               , sent_msgs := step.2 :: r.sent_msgs }

/-- The cleanup of src/app.py lines 320-322, applied to `enum`, an
enumeration of the signature set as produced by Python's
`list(self.processed_signatures)`.  A `set` has no specified iteration
order, so the enumeration is a parameter: any permutation of the stored
elements is a possible value of `list(...)`. -/
def cleanup_signatures (enum : List α) : List α :=
  if 10000 < enum.length then enum.drop (enum.length - 5000) else enum

/-- The mutable state the monitor loop carries across cycles. -/
structure LoopState where
  processed_signatures : List String
  token_cache : List (String × TokenInfo)
  error_count : Nat
deriving DecidableEq

/-- One iteration of `monitor_loop` (src/app.py lines 297-355).
`fetchSigs` is the outcome of `get_signatures_for_address`: an exception
(`.error msg` with `msg = str(e)`), or a response whose value may be
absent.  On success: process the signatures, clean up the set (through
the enumeration `enum` of the set's elements), and reset `error_count`
to 0.  On exception: run the `except` block.  Returns the new state and
the recovery actions performed. -/
def monitor_cycle (fetchSigs : Except String (Option (List String)))
    (fetch : String → Except String (Option TxResp))
    (lookup : String → LookupOutcome) (send : String → Except String Unit)
    (now : String) (enum : List String → List String) (st : LoopState) :
    LoopState × List RecoveryAction :=
  match fetchSigs with
  | .error msg =>
    let step := handle_cycle_error msg st.error_count
    ({ st with error_count := step.1 }, step.2)
  | .ok osigs =>
    let sigs := osigs.getD []
    let r := process_signatures fetch lookup send now
      st.processed_signatures st.token_cache sigs
    ( { processed_signatures := cleanup_signatures (enum r.processed_signatures)
      , token_cache := r.token_cache
      , error_count := 0 }
    , [] )

/-! ### Concrete fixtures used by the witnesses -/

/-- A concrete positively-classifying transaction: participants
`[TokenX, a burn-sink address, the program identifier]`. -/
def example_tx_resp : TxResp :=
  TxResp.mk (some (TxData.mk (some (TxTransaction.mk
    (TxMessage.mk
      (some [ "TokenX"
            , "So11111111111111111111111111111111111111112"
            , RAYDIUM_AMM_PROGRAM ])
      none)))))

/-- A fetch that always returns `example_tx_resp`. -/
def example_fetch : String → Except String (Option TxResp) :=
  fun _ => .ok (some example_tx_resp)

/-- A fetch that always raises. -/
def failing_fetch : String → Except String (Option TxResp) :=
  fun _ => .error "ConnectionError"

/-- A concrete complete Jupiter response body. -/
def example_token_data : TokenData :=
  TokenData.mk (some "SOL") (some "Solana") (some 9)

/-- A metadata lookup that always succeeds with `example_token_data`. -/
def example_lookup_ok : String → LookupOutcome :=
  fun _ => .response 200 example_token_data

/-- A metadata lookup that always raises. -/
def example_lookup_fail : String → LookupOutcome :=
  fun _ => .failure

/-- A metadata lookup returning 200 with a body lacking all three fields. -/
def fieldless_lookup : String → LookupOutcome :=
  fun _ => .response 200 (TokenData.mk none none none)

/-- A message send that always succeeds. -/
def example_send_ok : String → Except String Unit :=
  fun _ => .ok ()

/-- A message send that always raises. -/
def example_send_fail : String → Except String Unit :=
  fun _ => .error "TelegramError"

/-! ## Helper lemmas -/

/-- Every element of `(List.range n).drop k` is at least `k`. -/
theorem mem_drop_range_le {n k x : Nat} (h : x ∈ (List.range n).drop k) : k ≤ x := by
  rw [List.mem_iff_getElem] at h
  obtain ⟨i, hi, hx⟩ := h
  rw [List.getElem_drop, List.getElem_range] at hx
  omega

/-- Cleaning up a 10001-element set whose enumeration is the reverse of
`List.range 10001` keeps the 5000 smallest elements. -/
theorem cleanup_reverse_range :
    cleanup_signatures ((List.range 10001).reverse) = (List.range 5000).reverse := by
  have hlen : ((List.range 10001).reverse).length = 10001 := by
    rw [List.length_reverse, List.length_range]
  have htake : ((List.range 10001).take 5000).reverse
      = ((List.range 10001).reverse).drop 5001 := by
    rw [List.reverse_take, List.length_range]
  simp only [cleanup_signatures, hlen]
  norm_num
  rw [← htake, List.take_range]
  norm_num

/-- Iterating `rotate_rpc` advances the index additively modulo the pool
size (for an in-range starting index). -/
theorem rotate_rpc_iterate (p : RpcPool) (h : p.rpc_index < p.rpc_urls.length) :
    ∀ k, rotate_rpc^[k] p =
      { rpc_urls := p.rpc_urls
      , rpc_index := (p.rpc_index + k) % p.rpc_urls.length }
  | 0 => by
    simp [Nat.mod_eq_of_lt h]
  | k + 1 => by
    rw [Function.iterate_succ_apply', rotate_rpc_iterate p h k]
    simp only [rotate_rpc]
    rw [Nat.mod_add_mod, Nat.add_assoc]

/-! ## Claims -/

/-- C1: for every fetched transaction, `check_transaction` returns a
result iff the fetch succeeded with a present body and the extracted
participant-account list contains at least one burn-sink address and at
least one of the program / authority identifiers; in every other case
(fetch exception, absent value, absent transaction, no intersection) it
returns `none`. -/
theorem claim_c1_classify_iff (fetch : String → Except String (Option TxResp))
    (now signature : String) :
    (check_transaction fetch now signature).isSome = true ↔
      ∃ tx tx_data txn,
        fetch signature = .ok (some tx) ∧
        tx.value = some tx_data ∧
        tx_data.transaction = some txn ∧
        (∃ burn ∈ BURN_ADDRESSES, burn ∈ get_account_keys txn.message) ∧
        (RAYDIUM_AMM_PROGRAM ∈ get_account_keys txn.message ∨
         RAYDIUM_AUTHORITY ∈ get_account_keys txn.message) := by
  unfold check_transaction
  cases hfetch : fetch signature with
  | error e => simp [hfetch]
  | ok otx =>
    cases otx with
    | none => simp [hfetch]
    | some tx =>
      cases hval : tx.value with
      | none => simp [hfetch, hval]
      | some tx_data =>
        cases htxn : tx_data.transaction with
        | none => simp [hfetch, hval, htxn]
        | some txn =>
          simp only [hfetch, hval, htxn]
          split
          · rename_i hcond
            simp only [Bool.and_eq_true, Bool.or_eq_true, List.any_eq_true] at hcond
            obtain ⟨⟨burn, hb1, hb2⟩, hray⟩ := hcond
            simp only [Option.isSome_some, true_iff]
            refine ⟨tx, tx_data, txn, rfl, hval, htxn,
              ⟨burn, hb1, List.elem_iff.mp hb2⟩, ?_⟩
            rcases hray with h | h
            · exact Or.inl (List.elem_iff.mp h)
            · exact Or.inr (List.elem_iff.mp h)
          · rename_i hcond
            simp only [Option.isSome_none, Bool.false_eq_true, false_iff]
            rintro ⟨tx', tx_data', txn', hfetch', hval', htxn', ⟨burn, hb1, hb2⟩, hray⟩
            injection hfetch' with hfetch''
            injection hfetch'' with hfetch3
            subst hfetch3
            rw [hval] at hval'
            injection hval' with hval2
            subst hval2
            rw [htxn] at htxn'
            injection htxn' with htxn2
            subst htxn2
            apply hcond
            simp only [Bool.and_eq_true, Bool.or_eq_true, List.any_eq_true]
            refine ⟨⟨burn, hb1, List.elem_iff.mpr hb2⟩, ?_⟩
            rcases hray with h | h
            · exact Or.inl (List.elem_iff.mpr h)
            · exact Or.inr (List.elem_iff.mpr h)

/-- C2: the eviction of src/app.py lines 320-322 takes the last 5000
elements of `list(self.processed_signatures)` - an enumeration of a
Python `set`, which has no specified iteration order.  Witness: insert
0,...,10000 in that order; the reversed enumeration is a permutation of
the stored elements (so a possible value of `list(...)`), the eviction
then retains 5000 elements including 0, the oldest identifier, even
though 0 is not among the 5000 most-recently-inserted (5001,...,10000).
The retained set is therefore not the 5000 most-recently-inserted
identifiers, contradicting the claim. -/
theorem claim_c2_eviction_not_insertion_order :
    ((List.range 10001).reverse).Perm (List.range 10001) ∧
    (cleanup_signatures ((List.range 10001).reverse)).length = 5000 ∧
    0 ∈ cleanup_signatures ((List.range 10001).reverse) ∧
    0 ∉ (List.range 10001).drop 5001 := by
  refine ⟨List.reverse_perm _, ?_, ?_, ?_⟩
  · rw [cleanup_reverse_range, List.length_reverse, List.length_range]
  · rw [cleanup_reverse_range, List.mem_reverse, List.mem_range]
    norm_num
  · intro h
    have := mem_drop_range_le h
    omega

/-- C7: whenever `check_transaction` succeeds, the result's
`token_address` is the first entry of the extracted participant list and
its `burn_percent` is the configured `MIN_BURN_PERCENT` constant. -/
theorem claim_c7_subject_heuristic (fetch : String → Except String (Option TxResp))
    (now signature : String) (r : ClassificationResult)
    (h : check_transaction fetch now signature = some r) :
    r.burn_percent = MIN_BURN_PERCENT ∧
    ∃ tx tx_data txn a rest,
      fetch signature = .ok (some tx) ∧
      tx.value = some tx_data ∧
      tx_data.transaction = some txn ∧
      get_account_keys txn.message = a :: rest ∧
      r.token_address = a := by
  unfold check_transaction at h
  cases hfetch : fetch signature with
  | error e => simp [hfetch] at h
  | ok otx =>
    cases otx with
    | none => simp [hfetch] at h
    | some tx =>
      cases hval : tx.value with
      | none => simp [hfetch, hval] at h
      | some tx_data =>
        cases htxn : tx_data.transaction with
        | none => simp [hfetch, hval, htxn] at h
        | some txn =>
          simp only [hfetch, hval, htxn] at h
          split at h
          · rename_i hcond
            injection h with h'
            subst h'
            simp only [Bool.and_eq_true, List.any_eq_true] at hcond
            obtain ⟨⟨burn, _, hb2⟩, _⟩ := hcond
            cases haccts : get_account_keys txn.message with
            | nil =>
              rw [haccts] at hb2
              exact absurd hb2 (by simp)
            | cons a rest =>
              refine ⟨rfl, tx, tx_data, txn, a, rest, rfl, hval, htxn, haccts, ?_⟩
              simp [haccts]
          · exact absurd h (by simp)

/-- C7 witness: a concrete positive classification. -/
theorem claim_c7_subject_heuristic_witness :
    (ClassificationResult.mk "Sig1" "TokenX" "t0" 90).burn_percent = MIN_BURN_PERCENT ∧
    ∃ tx tx_data txn a rest,
      example_fetch "Sig1" = .ok (some tx) ∧
      tx.value = some tx_data ∧
      tx_data.transaction = some txn ∧
      get_account_keys txn.message = a :: rest ∧
      (ClassificationResult.mk "Sig1" "TokenX" "t0" 90).token_address = a :=
  claim_c7_subject_heuristic example_fetch "t0" "Sig1"
    (ClassificationResult.mk "Sig1" "TokenX" "t0" 90) (by decide)

/-- C8: rotation is total and strictly round-robin: it advances the
current index by one modulo the pool size, and rotating pool-size many
times returns the pool (and its current endpoint) to its original
state. -/
theorem claim_c8_rotation (p : RpcPool) (h : p.rpc_index < p.rpc_urls.length) :
    (rotate_rpc p).rpc_index = (p.rpc_index + 1) % p.rpc_urls.length ∧
    rotate_rpc^[p.rpc_urls.length] p = p ∧
    current_rpc (rotate_rpc^[p.rpc_urls.length] p) = current_rpc p := by
  have h2 : rotate_rpc^[p.rpc_urls.length] p = p := by
    rw [rotate_rpc_iterate p h, Nat.add_mod_right, Nat.mod_eq_of_lt h]
  exact ⟨rfl, h2, by rw [h2]⟩

/-- C8 witness: the concrete five-endpoint pool starting at index 0. -/
theorem claim_c8_rotation_witness :
    (rotate_rpc (RpcPool.mk RPC_URLS 0)).rpc_index
        = ((RpcPool.mk RPC_URLS 0).rpc_index + 1) % RPC_URLS.length ∧
    rotate_rpc^[RPC_URLS.length] (RpcPool.mk RPC_URLS 0) = RpcPool.mk RPC_URLS 0 ∧
    current_rpc (rotate_rpc^[RPC_URLS.length] (RpcPool.mk RPC_URLS 0))
        = current_rpc (RpcPool.mk RPC_URLS 0) :=
  claim_c8_rotation (RpcPool.mk RPC_URLS 0) (by decide)

/-- C5: the metadata cache on a hit returns the cached record; on a miss
whose lookup fails (exception) or returns a non-200 status it returns the
fallback record without caching it (so the cache is unchanged and a later
call re-attempts the lookup); only a 200 response is cached, after which
any later call for the key returns the cached record regardless of the
lookup function (the lookup is not re-invoked).  The function is total:
it never raises. -/
theorem claim_c5_metadata_cache (lookup lookup2 : String → LookupOutcome)
    (token_cache : List (String × TokenInfo)) (mint_address : String) :
    (∀ info, token_cache.lookup mint_address = some info →
      get_token_info lookup token_cache mint_address = (info, token_cache)) ∧
    (token_cache.lookup mint_address = none → lookup mint_address = .failure →
      get_token_info lookup token_cache mint_address = (fallback_info, token_cache)) ∧
    (∀ status data, token_cache.lookup mint_address = none →
      lookup mint_address = .response status data → status ≠ 200 →
      get_token_info lookup token_cache mint_address = (fallback_info, token_cache)) ∧
    (∀ data, token_cache.lookup mint_address = none →
      lookup mint_address = .response 200 data →
      get_token_info lookup token_cache mint_address =
        (token_info_of_data data, (mint_address, token_info_of_data data) :: token_cache) ∧
      get_token_info lookup2
          ((mint_address, token_info_of_data data) :: token_cache) mint_address =
        (token_info_of_data data,
         (mint_address, token_info_of_data data) :: token_cache)) := by
  refine ⟨?_, ?_, ?_, ?_⟩
  · intro info hhit
    unfold get_token_info
    rw [hhit]
  · intro hmiss hfail
    unfold get_token_info
    rw [hmiss, hfail]
  · intro status data hmiss hresp hstatus
    unfold get_token_info
    rw [hmiss, hresp]
    simp [hstatus]
  · intro data hmiss hresp
    constructor
    · unfold get_token_info
      rw [hmiss, hresp]
      simp
    · unfold get_token_info
      have hhit : (((mint_address, token_info_of_data data) :: token_cache).lookup
          mint_address) = some (token_info_of_data data) := by
        simp [List.lookup]
      rw [hhit]

/-- C5 witness: a failed lookup yields the fallback and caches nothing; a
successful lookup is cached. -/
theorem claim_c5_metadata_cache_witness :
    get_token_info example_lookup_fail [] "Mint1" = (fallback_info, []) ∧
    get_token_info example_lookup_ok [] "Mint1" =
      (token_info_of_data example_token_data,
       [("Mint1", token_info_of_data example_token_data)]) :=
  ⟨(claim_c5_metadata_cache example_lookup_fail example_lookup_fail [] "Mint1").2.1
      rfl rfl,
   ((claim_c5_metadata_cache example_lookup_ok example_lookup_fail [] "Mint1").2.2.2
      example_token_data rfl rfl).1⟩

/-- C10: a 200 response whose body lacks all three fields yields the
record built from the per-field defaults - equal to the failure fallback
record - and caches it, so every later call for the key returns it
regardless of the lookup function (no retry, unlike after a failed
lookup). -/
theorem claim_c10_fieldless_success_pins_fallback
    (lookup lookup2 : String → LookupOutcome)
    (token_cache : List (String × TokenInfo)) (mint_address : String)
    (hmiss : token_cache.lookup mint_address = none)
    (hresp : lookup mint_address = .response 200 (TokenData.mk none none none)) :
    get_token_info lookup token_cache mint_address =
      (fallback_info, (mint_address, fallback_info) :: token_cache) ∧
    get_token_info lookup2 ((mint_address, fallback_info) :: token_cache) mint_address =
      (fallback_info, (mint_address, fallback_info) :: token_cache) := by
  constructor
  · unfold get_token_info
    rw [hmiss, hresp]
    simp
    rfl
  · unfold get_token_info
    have hhit : (((mint_address, fallback_info) :: token_cache).lookup mint_address)
        = some fallback_info := by
      simp [List.lookup]
    rw [hhit]

/-- C10 witness: the concrete field-less 200 response on an empty cache. -/
theorem claim_c10_fieldless_success_pins_fallback_witness :
    get_token_info fieldless_lookup [] "Mint1" =
      (fallback_info, [("Mint1", fallback_info)]) ∧
    get_token_info example_lookup_fail [("Mint1", fallback_info)] "Mint1" =
      (fallback_info, [("Mint1", fallback_info)]) :=
  claim_c10_fieldless_success_pins_fallback fieldless_lookup example_lookup_fail
    [] "Mint1" rfl rfl

/-- C6: a non-escalated cycle failure increments the counter by exactly
one and applies the recovery of the exception's class (first matching
branch of the `if`/`elif` chain): rate-limited rotates then waits 30;
forbidden rotates then waits 5; service-unavailable rotates then waits
10; connection/timeout waits 10 with no rotation; any other class gets no
special wait. -/
theorem claim_c6_per_class_recovery (error_msg : String) (error_count : Nat)
    (h : error_count + 1 ≤ 10) :
    (handle_cycle_error error_msg error_count).1 = error_count + 1 ∧
    (handle_cycle_error error_msg error_count).2 = per_class_actions error_msg ∧
    (is_rate_limited error_msg = true →
      per_class_actions error_msg = [.rotate, .sleep 30]) ∧
    (is_rate_limited error_msg = false → is_forbidden error_msg = true →
      per_class_actions error_msg = [.rotate, .sleep 5]) ∧
    (is_rate_limited error_msg = false → is_forbidden error_msg = false →
      is_unavailable error_msg = true →
      per_class_actions error_msg = [.rotate, .sleep 10]) ∧
    (is_rate_limited error_msg = false → is_forbidden error_msg = false →
      is_unavailable error_msg = false → is_conn_timeout error_msg = true →
      per_class_actions error_msg = [.sleep 10] ∧
      RecoveryAction.rotate ∉ per_class_actions error_msg) ∧
    (is_rate_limited error_msg = false → is_forbidden error_msg = false →
      is_unavailable error_msg = false → is_conn_timeout error_msg = false →
      per_class_actions error_msg = []) := by
  have hec : ¬ (10 < error_count + 1) := by omega
  refine ⟨?_, ?_, ?_, ?_, ?_, ?_, ?_⟩
  · simp [handle_cycle_error, hec]
  · simp [handle_cycle_error, hec]
  · intro h1
    simp [per_class_actions, h1]
  · intro h1 h2
    simp [per_class_actions, h1, h2]
  · intro h1 h2 h3
    simp [per_class_actions, h1, h2, h3]
  · intro h1 h2 h3 h4
    refine ⟨by simp [per_class_actions, h1, h2, h3, h4], ?_⟩
    simp [per_class_actions, h1, h2, h3, h4]
  · intro h1 h2 h3 h4
    simp [per_class_actions, h1, h2, h3, h4]

/-- C6 witness: a rate-limited failure at counter 0. -/
theorem claim_c6_per_class_recovery_witness :
    (handle_cycle_error "429 Too Many Requests" 0).1 = 0 + 1 ∧
    (handle_cycle_error "429 Too Many Requests" 0).2 =
      per_class_actions "429 Too Many Requests" ∧
    (is_rate_limited "429 Too Many Requests" = true →
      per_class_actions "429 Too Many Requests" = [.rotate, .sleep 30]) ∧
    (is_rate_limited "429 Too Many Requests" = false →
      is_forbidden "429 Too Many Requests" = true →
      per_class_actions "429 Too Many Requests" = [.rotate, .sleep 5]) ∧
    (is_rate_limited "429 Too Many Requests" = false →
      is_forbidden "429 Too Many Requests" = false →
      is_unavailable "429 Too Many Requests" = true →
      per_class_actions "429 Too Many Requests" = [.rotate, .sleep 10]) ∧
    (is_rate_limited "429 Too Many Requests" = false →
      is_forbidden "429 Too Many Requests" = false →
      is_unavailable "429 Too Many Requests" = false →
      is_conn_timeout "429 Too Many Requests" = true →
      per_class_actions "429 Too Many Requests" = [.sleep 10] ∧
      RecoveryAction.rotate ∉ per_class_actions "429 Too Many Requests") ∧
    (is_rate_limited "429 Too Many Requests" = false →
      is_forbidden "429 Too Many Requests" = false →
      is_unavailable "429 Too Many Requests" = false →
      is_conn_timeout "429 Too Many Requests" = false →
      per_class_actions "429 Too Many Requests" = []) :=
  claim_c6_per_class_recovery "429 Too Many Requests" 0 (by omega)

/-- The per-class branches never emit the 60-unit escalation sleep. -/
theorem per_class_actions_count_sleep60 (error_msg : String) :
    (per_class_actions error_msg).count (RecoveryAction.sleep 60) = 0 := by
  unfold per_class_actions
  split
  · rfl
  · split
    · rfl
    · split
      · rfl
      · split
        · rfl
        · rfl

/-- C3 as amended: over any 11 consecutive failures starting at counter
0, the first 10 cycles apply their per-class recovery only, the 11th
applies its per-class recovery AND THEN (in addition, not instead) the
escalation rotation and 60-unit sleep, exactly one escalation sleep
occurs in the whole run, and the final counter is 0 - regardless of the
11 failures' error classes. -/
theorem claim_c3_escalation_additive
    (m1 m2 m3 m4 m5 m6 m7 m8 m9 m10 m11 : String) :
    run_failures [m1, m2, m3, m4, m5, m6, m7, m8, m9, m10, m11] 0 =
      (0, [ per_class_actions m1, per_class_actions m2, per_class_actions m3
          , per_class_actions m4, per_class_actions m5, per_class_actions m6
          , per_class_actions m7, per_class_actions m8, per_class_actions m9
          , per_class_actions m10
          , per_class_actions m11 ++ [RecoveryAction.rotate, RecoveryAction.sleep 60] ]) ∧
    ((run_failures [m1, m2, m3, m4, m5, m6, m7, m8, m9, m10, m11] 0).2.map
        (fun acts => acts.count (RecoveryAction.sleep 60))).sum = 1 := by
  have h1 : run_failures [m1, m2, m3, m4, m5, m6, m7, m8, m9, m10, m11] 0 =
      (0, [ per_class_actions m1, per_class_actions m2, per_class_actions m3
          , per_class_actions m4, per_class_actions m5, per_class_actions m6
          , per_class_actions m7, per_class_actions m8, per_class_actions m9
          , per_class_actions m10
          , per_class_actions m11 ++
              [RecoveryAction.rotate, RecoveryAction.sleep 60] ]) := by
    simp [run_failures, handle_cycle_error]
  refine ⟨h1, ?_⟩
  rw [h1]
  simp [List.count_append, per_class_actions_count_sleep60]
  rfl

/-- C3 counterexample: with 11 consecutive rate-limited failures, the
11th cycle performs `[rotate, sleep 30, rotate, sleep 60]` - the
per-class rotation and 30-unit wait are still performed, followed by the
escalation - so the escalation does not replace the per-class recovery,
and the cycle performs two rotations, not exactly one
rotation-and-cooldown event. -/
theorem claim_c3_override_counterexample :
    run_failures (List.replicate 11 "429") 0 =
      (0, List.replicate 10 [RecoveryAction.rotate, RecoveryAction.sleep 30] ++
        [[ RecoveryAction.rotate, RecoveryAction.sleep 30
         , RecoveryAction.rotate, RecoveryAction.sleep 60 ]]) ∧
    (run_failures (List.replicate 11 "429") 0).2.getLastD [] ≠
      [RecoveryAction.rotate, RecoveryAction.sleep 60] ∧
    ((run_failures (List.replicate 11 "429") 0).2.getLastD []).contains
      (RecoveryAction.sleep 30) = true := by
  refine ⟨by decide, by decide, by decide⟩

/-- C4: in a cycle over fetched candidates `[s1, s2]` with `s1` already
in the ledger and `s2` new and positively classifying, the loop skips
`s1` (never handing it to `check_transaction`), adds `s2` to the ledger,
classifies it, and dispatches exactly one notification for its result. -/
theorem claim_c4_cycle_processing
    (fetch : String → Except String (Option TxResp))
    (lookup : String → LookupOutcome) (send : String → Except String Unit)
    (now : String) (processed : List String)
    (token_cache : List (String × TokenInfo)) (s1 s2 : String)
    (burn_data : ClassificationResult)
    (h1 : processed.contains s1 = true)
    (h2 : processed.contains s2 = false)
    (hc : check_transaction fetch now s2 = some burn_data) :
    (process_signatures fetch lookup send now processed token_cache [s1, s2]).classified
        = [s2] ∧
    (process_signatures fetch lookup send now processed token_cache [s1, s2]).notifications
        = [burn_data] ∧
    (process_signatures fetch lookup send now processed token_cache
        [s1, s2]).processed_signatures = processed ++ [s2] ∧
    (process_signatures fetch lookup send now processed token_cache
        [s1, s2]).sent_msgs.length = 1 := by
  have hm1 : s1 ∈ processed := List.elem_iff.mp h1
  have hm2 : ¬ s2 ∈ processed := fun hm => by
    have h2e : List.elem s2 processed = false := h2
    rw [List.elem_iff.mpr hm] at h2e
    exact Bool.true_eq_false.mp h2e
  simp [process_signatures, hm1, hm2, hc]

/-- C4 witness: ledger `["Sig0"]`, candidates `["Sig0", "Sig2"]`, `Sig2`
classifying positively with participants headed by `TokenX`. -/
theorem claim_c4_cycle_processing_witness :
    (process_signatures example_fetch example_lookup_fail example_send_ok "t0"
        ["Sig0"] [] ["Sig0", "Sig2"]).classified = ["Sig2"] ∧
    (process_signatures example_fetch example_lookup_fail example_send_ok "t0"
        ["Sig0"] [] ["Sig0", "Sig2"]).notifications =
      [ClassificationResult.mk "Sig2" "TokenX" "t0" 90] ∧
    (process_signatures example_fetch example_lookup_fail example_send_ok "t0"
        ["Sig0"] [] ["Sig0", "Sig2"]).processed_signatures = ["Sig0"] ++ ["Sig2"] ∧
    (process_signatures example_fetch example_lookup_fail example_send_ok "t0"
        ["Sig0"] [] ["Sig0", "Sig2"]).sent_msgs.length = 1 :=
  claim_c4_cycle_processing example_fetch example_lookup_fail example_send_ok "t0"
    ["Sig0"] [] "Sig0" "Sig2" (ClassificationResult.mk "Sig2" "TokenX" "t0" 90)
    (by decide) (by decide) (by decide)

/-- `send_notification` discards the send call's outcome: its result is
the updated cache and the rendered message, whatever `send` returns. -/
theorem send_notification_eq (lookup : String → LookupOutcome)
    (send : String → Except String Unit) (token_cache : List (String × TokenInfo))
    (burn_data : ClassificationResult) :
    send_notification lookup send token_cache burn_data =
      ((get_token_info lookup token_cache burn_data.token_address).2,
       format_message (get_token_info lookup token_cache burn_data.token_address).1
         burn_data) := by
  unfold send_notification
  rcases hgt : get_token_info lookup token_cache burn_data.token_address with ⟨tok, c⟩
  dsimp only
  cases h : send (format_message tok burn_data) <;> simp [h]

/-- C9: a raised exception inside classification yields `none` (absent);
a failed notification is absorbed (the dispatcher's result does not
depend on the send outcome) and attempted exactly once per positive
classification (no retry); and a cycle whose candidate fetch succeeds
ends with `error_count = 0` no matter what the per-transaction fetch, the
metadata lookup or the send do - such failures never reach the monitor
loop's error counter. -/
theorem claim_c9_error_isolation
    (fetch : String → Except String (Option TxResp)) (e now signature : String)
    (hf : fetch signature = .error e)
    (lookup : String → LookupOutcome) (send send2 : String → Except String Unit)
    (token_cache : List (String × TokenInfo)) (burn_data : ClassificationResult) :
    check_transaction fetch now signature = none ∧
    send_notification lookup send token_cache burn_data =
      send_notification lookup send2 token_cache burn_data ∧
    (∀ (osigs : Option (List String)) fetch2 lookup2 send3 now2 enum st,
      (monitor_cycle (.ok osigs) fetch2 lookup2 send3 now2 enum st).1.error_count = 0) ∧
    (∀ fetch2 lookup2 send3 now2 processed cache sigs,
      (process_signatures fetch2 lookup2 send3 now2 processed cache sigs).sent_msgs.length
        = (process_signatures fetch2 lookup2 send3 now2 processed cache
            sigs).notifications.length) := by
  refine ⟨?_, ?_, ?_, ?_⟩
  · unfold check_transaction
    rw [hf]
  · rw [send_notification_eq, send_notification_eq]
  · intro osigs fetch2 lookup2 send3 now2 enum st
    rfl
  · intro fetch2 lookup2 send3 now2 processed cache sigs
    induction sigs generalizing processed cache with
    | nil => rfl
    | cons s rest ih =>
      by_cases hs : s ∈ processed
      · simp [process_signatures, hs, ih]
      · cases hc : check_transaction fetch2 now2 s with
        | none => simp [process_signatures, hs, hc, ih]
        | some bd => simp [process_signatures, hs, hc, ih]

/-- C9 witness: a failing per-transaction fetch and a failing send on a
concrete positive result. -/
theorem claim_c9_error_isolation_witness :
    check_transaction failing_fetch "t0" "Sig1" = none ∧
    send_notification example_lookup_fail example_send_fail []
        (ClassificationResult.mk "Sig1" "TokenX" "t0" 90) =
      send_notification example_lookup_fail example_send_ok []
        (ClassificationResult.mk "Sig1" "TokenX" "t0" 90) ∧
    (∀ (osigs : Option (List String)) fetch2 lookup2 send3 now2 enum st,
      (monitor_cycle (.ok osigs) fetch2 lookup2 send3 now2 enum st).1.error_count = 0) ∧
    (∀ fetch2 lookup2 send3 now2 processed cache sigs,
      (process_signatures fetch2 lookup2 send3 now2 processed cache sigs).sent_msgs.length
        = (process_signatures fetch2 lookup2 send3 now2 processed cache
            sigs).notifications.length) :=
  claim_c9_error_isolation failing_fetch "ConnectionError" "t0" "Sig1" rfl
    example_lookup_fail example_send_fail example_send_ok []
    (ClassificationResult.mk "Sig1" "TokenX" "t0" 90)

/-- C1 witness: the concrete positive transaction classifies. -/
theorem claim_c1_classify_iff_witness :
    (check_transaction example_fetch "t0" "Sig1").isSome = true :=
  (claim_c1_classify_iff example_fetch "t0" "Sig1").mpr
    ⟨ example_tx_resp
    , TxData.mk (some (TxTransaction.mk (TxMessage.mk
        (some [ "TokenX"
              , "So11111111111111111111111111111111111111112"
              , RAYDIUM_AMM_PROGRAM ]) none)))
    , TxTransaction.mk (TxMessage.mk
        (some [ "TokenX"
              , "So11111111111111111111111111111111111111112"
              , RAYDIUM_AMM_PROGRAM ]) none)
    , rfl, rfl, rfl
    , ⟨"So11111111111111111111111111111111111111112",
        List.Mem.tail _ (List.Mem.tail _ (List.Mem.head _)),
        List.Mem.tail _ (List.Mem.head _)⟩
    , Or.inl (List.Mem.tail _ (List.Mem.tail _ (List.Mem.head _))) ⟩
